import Mathlib

/-!
Verification of the board access-control subsystem of a Trello MCP server.

The embedding models the TypeScript sources:
  src/utils/board-access-control.ts  (fetchBoardNormalId, checkBoardAccess, BoardAccessError)
  src/utils/card-access-control.ts   (checkCardAccess, checkListAccess)
  src/tools/card-tool-handlers.ts    (delete_card, move_card_to_list, ...)
  src/tools/list-tool-handlers.ts    (move_list_to_board, move_all_cards, ...)
  src/config.ts                      (the config record shape)

JavaScript exceptions become `Except JsError`; the process-wide mutable
state (the board-id cache plus the config module object) becomes an explicit
`St` value threaded through each function; every remote call made through
the service layer is recorded in an event trace, so that statements of the
form "no mutation call is issued" are statements about the trace.
-/

deriving instance DecidableEq for Except

namespace TrelloACL

/-- Shape of `config.trello` from src/config.ts: `configPath`, `allowedBoardsKey`
and `allowedBoardIds` are optional, `debug` is the top-level debug flag. -/
structure TrelloConfig where
  configPath : Option String
  allowedBoardsKey : Option String
  allowedBoardIds : Option (List String)
  debug : Bool
deriving DecidableEq, Repr

/-- The fields of a Trello card used by the access-control code: `id` and
the owning board id `idBoard`. -/
structure Card where
  id : String
  idBoard : String
deriving DecidableEq, Repr

/-- The fields of a Trello list used by the access-control code. -/
structure TrelloList where
  id : String
  idBoard : String
deriving DecidableEq, Repr

/-- The `{ success, message }` objects returned by some handlers. -/
structure MsgResult where
  success : Bool
  message : String
deriving DecidableEq, Repr

/-- JavaScript errors thrown by the modelled code: `boardAccess` is the
`BoardAccessError` class (fields boardId, operation, allowedBoardsKey);
`generic` is a plain `Error` carrying only its message. -/
inductive JsError where
  | boardAccess (boardId : String) (operation : String) (allowedBoardsKey : String)
  | generic (message : String)
deriving DecidableEq, Repr

/-- The `instanceof BoardAccessError` test used by the catch clauses in
src/utils/card-access-control.ts. -/
def isBoardAccessError : JsError → Bool
  | .boardAccess _ _ _ => true
  | .generic _ => false

/-- `error instanceof Error ? error.message : String(error)`: the message of a
`BoardAccessError` is the template built in its constructor
(src/utils/board-access-control.ts line 15); a plain `Error` carries its message. -/
def jsErrorMessage : JsError → String
  | .boardAccess boardId operation key =>
      "Access denied: Operation '" ++ operation ++ "' on board '" ++ boardId ++
        "' is not allowed by the configured access control group: \"" ++ key ++ "\""
  | .generic msg => msg

/-- One remote call through the service layer (query or mutation). -/
inductive Event where
  | getBoard (id : String)
  | getCard (id : String)
  | getList (id : String)
  | moveCardToList (cardId : String) (listId : String)
  | moveListToBoard (listId : String) (boardId : String)
  | moveAllCards (sourceListId : String) (destinationListId : String) (boardId : Option String)
  | deleteCard (cardId : String)
deriving DecidableEq, Repr

/-- Events that are pure lookups (no mutation on the remote system). -/
def Event.isQuery : Event → Bool
  | .getBoard _ => true
  | .getCard _ => true
  | .getList _ => true
  | _ => false

/-- The external resource services (ServiceFactory): each call either
returns a value or fails with the thrown error's message. -/
structure Env where
  getBoard : String → Except String String
  getCard : String → Except String Card
  getList : String → Except String TrelloList
  moveCardToList : String → String → Except String Card
  moveListToBoard : String → String → Except String TrelloList
  moveAllCards : String → String → Option String → Except String Unit
  deleteCard : String → Except String Unit

/-- The process-wide mutable state: the `boardIdCache` Map and the config
module object. -/
structure St where
  cache : List (String × String)
  cfg : TrelloConfig
deriving DecidableEq, Repr

/-- `Map.get`: the value stored at `k`, if any. -/
def mapGet (m : List (String × String)) (k : String) : Option String :=
  match m with
  | [] => none
  | (k', v) :: rest => if k' = k then some v else mapGet rest k

/-- `Map.set`: store `v` at `k`, overwriting an existing entry in place. -/
def mapSet (m : List (String × String)) (k : String) (v : String) : List (String × String) :=
  match m with
  | [] => [(k, v)]
  | (k', v') :: rest => if k' = k then (k', v) :: rest else (k', v') :: mapSet rest k v

/-- The TypeScript non-null assertion `allowedBoardsKey!` as observed at
runtime: an absent value interpolates as the string "undefined". -/
def optStr : Option String → String
  | some s => s
  | none => "undefined"

/-- JavaScript truthiness of the optional string `args.boardId`:
undefined and the empty string are falsy. -/
def truthyOpt : Option String → Bool
  | none => false
  | some s => !s.isEmpty

/-- src/utils/board-access-control.ts, `fetchBoardNormalId`: return the cached
canonical id if present; otherwise call `boardService.getBoard`, cache and
return its `.id` on success, and on any failure throw
`BoardAccessError(input, 'getBoard', 'board_not_found')` without caching. -/
def fetchBoardNormalId (env : Env) (st : St) (shortOrNormalID : String) :
    Except JsError String × St × List Event :=
  match mapGet st.cache shortOrNormalID with
  | some cachedId => (.ok cachedId, st, [])
  | none =>
    match env.getBoard shortOrNormalID with
    | .ok boardId =>
        (.ok boardId, { st with cache := mapSet st.cache shortOrNormalID boardId },
          [.getBoard shortOrNormalID])
    | .error _ =>
        (.error (.boardAccess shortOrNormalID "getBoard" "board_not_found"), st,
          [.getBoard shortOrNormalID])

/-- src/utils/board-access-control.ts, `checkBoardAccess`: optionally normalize
the board id (the source's default for `fetchNormalBoardId` is `true`); permit
when `allowedBoardIds` is absent or empty; otherwise permit iff the list
contains the id, and on denial throw
`BoardAccessError(boardId, operation, config.trello.allowedBoardsKey!)`.
The debug branch only logs and is not modelled. -/
def checkBoardAccess (env : Env) (st : St) (boardId : String) (operation : String)
    (fetchNormalBoardId : Bool) : Except JsError Bool × St × List Event :=
  match (if fetchNormalBoardId then fetchBoardNormalId env st boardId
         else (.ok boardId, st, [])) with
  | (.error e, st1, tr1) => (.error e, st1, tr1)
  | (.ok boardId1, st1, tr1) =>
    match st1.cfg.allowedBoardIds with
    | none => (.ok true, st1, tr1)
    | some allowedBoardIds =>
      if allowedBoardIds.length = 0 then (.ok true, st1, tr1)
      else if allowedBoardIds.contains boardId1 then (.ok true, st1, tr1)
      else (.error (.boardAccess boardId1 operation (optStr st1.cfg.allowedBoardsKey)),
             st1, tr1)

/-- src/utils/card-access-control.ts, `checkCardAccess`: fetch the card, then
delegate to `checkBoardAccess card.idBoard "<operation> (card <id>)"` with the
default normalization; the catch clause rethrows `BoardAccessError`s unchanged
and wraps every other error as
`Error("Unable to verify access for card <id>: <message>")`. -/
def checkCardAccess (env : Env) (st : St) (cardId : String) (operation : String) :
    Except JsError Unit × St × List Event :=
  match env.getCard cardId with
  | .error msg =>
      (.error (.generic ("Unable to verify access for card " ++ cardId ++ ": " ++ msg)),
        st, [.getCard cardId])
  | .ok card =>
    match checkBoardAccess env st card.idBoard (operation ++ " (card " ++ cardId ++ ")") true with
    | (.ok _, st1, tr1) => (.ok (), st1, .getCard cardId :: tr1)
    | (.error e, st1, tr1) =>
      if isBoardAccessError e then (.error e, st1, .getCard cardId :: tr1)
      else
        (.error (.generic ("Unable to verify access for card " ++ cardId ++ ": " ++
            jsErrorMessage e)), st1, .getCard cardId :: tr1)

/-- src/utils/card-access-control.ts, `checkListAccess`: same shape as
`checkCardAccess` with `getList`, `"<operation> (list <id>)"` and the
"Unable to verify access for list" wrapper. -/
def checkListAccess (env : Env) (st : St) (listId : String) (operation : String) :
    Except JsError Unit × St × List Event :=
  match env.getList listId with
  | .error msg =>
      (.error (.generic ("Unable to verify access for list " ++ listId ++ ": " ++ msg)),
        st, [.getList listId])
  | .ok list =>
    match checkBoardAccess env st list.idBoard (operation ++ " (list " ++ listId ++ ")") true with
    | (.ok _, st1, tr1) => (.ok (), st1, .getList listId :: tr1)
    | (.error e, st1, tr1) =>
      if isBoardAccessError e then (.error e, st1, .getList listId :: tr1)
      else
        (.error (.generic ("Unable to verify access for list " ++ listId ++ ": " ++
            jsErrorMessage e)), st1, .getList listId :: tr1)

/-- src/tools/card-tool-handlers.ts, `delete_card`: fail when `args.confirm`
is not truthy, before anything else; then `checkCardAccess`, then
`cardService.deleteCard`, returning `{ success: true, message: ... }`. -/
def delete_card (env : Env) (st : St) (cardId : String) (confirm : Bool) :
    Except JsError MsgResult × St × List Event :=
  if !confirm then
    (.error (.generic "Deletion requires confirmation. Set confirm: true to proceed."), st, [])
  else
    match checkCardAccess env st cardId "delete_card" with
    | (.error e, st1, tr1) => (.error e, st1, tr1)
    | (.ok _, st1, tr1) =>
      match env.deleteCard cardId with
      | .error msg => (.error (.generic msg), st1, tr1 ++ [.deleteCard cardId])
      | .ok _ => (.ok ⟨true, "Card deleted successfully"⟩, st1, tr1 ++ [.deleteCard cardId])

/-- src/tools/card-tool-handlers.ts, `move_card_to_list`: check the card,
then the target list, then call `cardService.moveCardToList`. -/
def move_card_to_list (env : Env) (st : St) (cardId : String) (listId : String) :
    Except JsError Card × St × List Event :=
  match checkCardAccess env st cardId "move_card_to_list" with
  | (.error e, st1, tr1) => (.error e, st1, tr1)
  | (.ok _, st1, tr1) =>
    match checkListAccess env st1 listId "move_card_to_list (target)" with
    | (.error e, st2, tr2) => (.error e, st2, tr1 ++ tr2)
    | (.ok _, st2, tr2) =>
      match env.moveCardToList cardId listId with
      | .error msg =>
          (.error (.generic msg), st2, tr1 ++ tr2 ++ [.moveCardToList cardId listId])
      | .ok card =>
          (.ok card, st2, tr1 ++ tr2 ++ [.moveCardToList cardId listId])

/-- src/tools/list-tool-handlers.ts, `move_list_to_board`: check the list,
then the target board (with the normalization default), then call
`listService.moveListToBoard`. -/
def move_list_to_board (env : Env) (st : St) (listId : String) (boardId : String) :
    Except JsError TrelloList × St × List Event :=
  match checkListAccess env st listId "move_list_to_board" with
  | (.error e, st1, tr1) => (.error e, st1, tr1)
  | (.ok _, st1, tr1) =>
    match checkBoardAccess env st1 boardId "move_list_to_board (target board)" true with
    | (.error e, st2, tr2) => (.error e, st2, tr1 ++ tr2)
    | (.ok _, st2, tr2) =>
      match env.moveListToBoard listId boardId with
      | .error msg =>
          (.error (.generic msg), st2, tr1 ++ tr2 ++ [.moveListToBoard listId boardId])
      | .ok list =>
          (.ok list, st2, tr1 ++ tr2 ++ [.moveListToBoard listId boardId])

/-- src/tools/list-tool-handlers.ts, `move_all_cards`: check the source list,
then the destination list, then — only when `args.boardId` is truthy — the
target board, and finally call `listService.moveAllCards` with the raw
`args.boardId` value. -/
def move_all_cards (env : Env) (st : St) (sourceListId : String)
    (destinationListId : String) (boardId : Option String) :
    Except JsError MsgResult × St × List Event :=
  match checkListAccess env st sourceListId "move_all_cards (source)" with
  | (.error e, st1, tr1) => (.error e, st1, tr1)
  | (.ok _, st1, tr1) =>
    match checkListAccess env st1 destinationListId "move_all_cards (destination)" with
    | (.error e, st2, tr2) => (.error e, st2, tr1 ++ tr2)
    | (.ok _, st2, tr2) =>
      match (if truthyOpt boardId then
               checkBoardAccess env st2 (optStr boardId) "move_all_cards (target board)" true
             else (.ok true, st2, [])) with
      | (.error e, st3, tr3) => (.error e, st3, tr1 ++ tr2 ++ tr3)
      | (.ok _, st3, tr3) =>
        match env.moveAllCards sourceListId destinationListId boardId with
        | .error msg =>
            (.error (.generic msg), st3,
              tr1 ++ tr2 ++ tr3 ++ [.moveAllCards sourceListId destinationListId boardId])
        | .ok _ =>
            (.ok ⟨true, "All cards have been moved to the destination list"⟩, st3,
              tr1 ++ tr2 ++ tr3 ++ [.moveAllCards sourceListId destinationListId boardId])

/-! Concrete resource services and configurations used by the witnesses. -/

/-- A concrete service environment: boards "B1", "B2", "B3" exist and are
already canonical, "SHORT" resolves to "B1", "BX" fails to resolve;
card "C1" lives on board "B1", card "C3" on "B3", card "C9" is unknown;
list "L1" lives on "B1", list "L2" on "B3", list "L9" is unknown;
every mutation call succeeds. -/
def envW : Env where
  getBoard := fun id =>
    if id = "B1" then .ok "B1"
    else if id = "B2" then .ok "B2"
    else if id = "B3" then .ok "B3"
    else if id = "SHORT" then .ok "B1"
    else .error "board not found"
  getCard := fun id =>
    if id = "C1" then .ok ⟨"C1", "B1"⟩
    else if id = "C3" then .ok ⟨"C3", "B3"⟩
    else .error "card not found"
  getList := fun id =>
    if id = "L1" then .ok ⟨"L1", "B1"⟩
    else if id = "L2" then .ok ⟨"L2", "B3"⟩
    else .error "list not found"
  moveCardToList := fun cardId _ => .ok ⟨cardId, "B1"⟩
  moveListToBoard := fun listId boardId => .ok ⟨listId, boardId⟩
  moveAllCards := fun _ _ _ => .ok ()
  deleteCard := fun _ => .ok ()

/-- A configuration whose allow-list ["B1", "B2"] was loaded from a YAML file
under the key "my_boards". -/
def cfgW : TrelloConfig :=
  ⟨some "/etc/trello-config.yaml", some "my_boards", some ["B1", "B2"], false⟩

/-- The open-access configuration: no allow-list configured. -/
def cfgOpen : TrelloConfig := ⟨none, none, none, false⟩

/-- Fresh process state (empty cache) under the restricted configuration. -/
def stW : St := ⟨[], cfgW⟩

/-- Fresh process state (empty cache) under the open-access configuration. -/
def stOpen : St := ⟨[], cfgOpen⟩

/-! Helper lemmas about the cache map and the gate functions. -/

theorem mapGet_mapSet_self (m : List (String × String)) (k v : String) :
    mapGet (mapSet m k v) k = some v := by
  induction m with
  | nil => simp [mapGet, mapSet]
  | cons p rest ih =>
    obtain ⟨k', v'⟩ := p
    by_cases h : k' = k
    · simp [mapGet, mapSet, h]
    · simp [mapGet, mapSet, h, ih]

theorem mapGet_mapSet_of_ne (m : List (String × String)) (k k' v : String) (h : k' ≠ k) :
    mapGet (mapSet m k v) k' = mapGet m k' := by
  induction m with
  | nil => simp [mapGet, mapSet, Ne.symm h]
  | cons p rest ih =>
    obtain ⟨k0, v0⟩ := p
    by_cases hk : k0 = k
    · subst hk
      simp [mapGet, mapSet, Ne.symm h]
    · simp [mapGet, mapSet, hk, ih]

theorem fetchBoardNormalId_cfg (env : Env) (st : St) (x : String) :
    ((fetchBoardNormalId env st x).2.1).cfg = st.cfg := by
  unfold fetchBoardNormalId
  repeat' split
  all_goals rfl

theorem fetchBoardNormalId_error (env : Env) (st : St) (x : String) (e : JsError)
    (h : (fetchBoardNormalId env st x).1 = .error e) :
    e = .boardAccess x "getBoard" "board_not_found" := by
  unfold fetchBoardNormalId at h
  split at h
  · simp at h
  · split at h
    · simp at h
    · simp at h
      exact h.symm

theorem fetchBoardNormalId_query (env : Env) (st : St) (x : String) :
    ∀ e ∈ (fetchBoardNormalId env st x).2.2, e.isQuery = true := by
  unfold fetchBoardNormalId
  repeat' split
  all_goals simp [Event.isQuery]

theorem checkBoardAccess_state_eq (env : Env) (st : St) (b op : String) (norm : Bool) :
    (checkBoardAccess env st b op norm).2.1
      = if norm then (fetchBoardNormalId env st b).2.1 else st := by
  unfold checkBoardAccess
  cases norm with
  | false =>
    simp only [Bool.false_eq_true, if_false]
    repeat' split
    all_goals rfl
  | true =>
    simp only [if_true]
    rcases hf : fetchBoardNormalId env st b with ⟨r, st1, tr1⟩
    cases r with
    | error e => rfl
    | ok c =>
      repeat' split
      all_goals simp_all

theorem checkBoardAccess_trace_eq (env : Env) (st : St) (b op : String) (norm : Bool) :
    (checkBoardAccess env st b op norm).2.2
      = if norm then (fetchBoardNormalId env st b).2.2 else [] := by
  unfold checkBoardAccess
  cases norm with
  | false =>
    simp only [Bool.false_eq_true, if_false]
    repeat' split
    all_goals rfl
  | true =>
    simp only [if_true]
    rcases hf : fetchBoardNormalId env st b with ⟨r, st1, tr1⟩
    cases r with
    | error e => rfl
    | ok c =>
      repeat' split
      all_goals simp_all

theorem checkBoardAccess_error_class (env : Env) (st : St) (b op : String) (norm : Bool)
    (e : JsError) (h : (checkBoardAccess env st b op norm).1 = .error e) :
    isBoardAccessError e = true := by
  cases norm with
  | false =>
    unfold checkBoardAccess at h
    simp only [Bool.false_eq_true, if_false] at h
    repeat' split at h
    all_goals try simp_all [isBoardAccessError]
    all_goals (subst h; rfl)
  | true =>
    rcases hf : fetchBoardNormalId env st b with ⟨r, st1, tr1⟩
    unfold checkBoardAccess at h
    simp only [if_true] at h
    rw [hf] at h
    cases r with
    | error e' =>
      simp at h
      have he := fetchBoardNormalId_error env st b e' (by rw [hf])
      subst he
      rw [← h]
      rfl
    | ok c =>
      repeat' split at h
      all_goals try simp_all [isBoardAccessError]
      all_goals (subst h; rfl)

theorem checkBoardAccess_query (env : Env) (st : St) (b op : String) (norm : Bool) :
    ∀ ev ∈ (checkBoardAccess env st b op norm).2.2, ev.isQuery = true := by
  intro ev hmem
  rw [checkBoardAccess_trace_eq] at hmem
  cases norm with
  | false => simp at hmem
  | true =>
    simp only [if_true] at hmem
    exact fetchBoardNormalId_query env st b ev hmem

theorem checkCardAccess_fetch_fail (env : Env) (st : St) (cardId op msg : String)
    (hg : env.getCard cardId = .error msg) :
    checkCardAccess env st cardId op
      = (.error (.generic ("Unable to verify access for card " ++ cardId ++ ": " ++ msg)),
          st, [.getCard cardId]) := by
  unfold checkCardAccess
  rw [hg]

theorem checkCardAccess_delegate (env : Env) (st : St) (cardId op : String) (card : Card)
    (hg : env.getCard cardId = .ok card) :
    checkCardAccess env st cardId op
      = ((checkBoardAccess env st card.idBoard (op ++ " (card " ++ cardId ++ ")") true).1.map
            (fun _ => ()),
         (checkBoardAccess env st card.idBoard (op ++ " (card " ++ cardId ++ ")") true).2.1,
         .getCard cardId ::
           (checkBoardAccess env st card.idBoard (op ++ " (card " ++ cardId ++ ")") true).2.2) := by
  rcases hb : checkBoardAccess env st card.idBoard (op ++ " (card " ++ cardId ++ ")") true
    with ⟨r, st1, tr1⟩
  unfold checkCardAccess
  rw [hg]
  dsimp only
  rw [hb]
  cases r with
  | ok u => rfl
  | error e =>
    have hie := checkBoardAccess_error_class env st card.idBoard
      (op ++ " (card " ++ cardId ++ ")") true e (by rw [hb])
    simp [hie, Except.map]

theorem checkListAccess_fetch_fail (env : Env) (st : St) (listId op msg : String)
    (hg : env.getList listId = .error msg) :
    checkListAccess env st listId op
      = (.error (.generic ("Unable to verify access for list " ++ listId ++ ": " ++ msg)),
          st, [.getList listId]) := by
  unfold checkListAccess
  rw [hg]

theorem checkListAccess_delegate (env : Env) (st : St) (listId op : String) (list : TrelloList)
    (hg : env.getList listId = .ok list) :
    checkListAccess env st listId op
      = ((checkBoardAccess env st list.idBoard (op ++ " (list " ++ listId ++ ")") true).1.map
            (fun _ => ()),
         (checkBoardAccess env st list.idBoard (op ++ " (list " ++ listId ++ ")") true).2.1,
         .getList listId ::
           (checkBoardAccess env st list.idBoard (op ++ " (list " ++ listId ++ ")") true).2.2) := by
  rcases hb : checkBoardAccess env st list.idBoard (op ++ " (list " ++ listId ++ ")") true
    with ⟨r, st1, tr1⟩
  unfold checkListAccess
  rw [hg]
  dsimp only
  rw [hb]
  cases r with
  | ok u => rfl
  | error e =>
    have hie := checkBoardAccess_error_class env st list.idBoard
      (op ++ " (list " ++ listId ++ ")") true e (by rw [hb])
    simp [hie, Except.map]

theorem checkCardAccess_query (env : Env) (st : St) (cardId op : String) :
    ∀ ev ∈ (checkCardAccess env st cardId op).2.2, ev.isQuery = true := by
  intro ev hmem
  rcases hg : env.getCard cardId with msg | card
  · rw [checkCardAccess_fetch_fail env st cardId op msg hg] at hmem
    simp at hmem
    subst hmem
    rfl
  · rw [checkCardAccess_delegate env st cardId op card hg] at hmem
    simp at hmem
    rcases hmem with h1 | h1
    · subst h1
      rfl
    · exact checkBoardAccess_query env st card.idBoard _ true ev h1

theorem checkListAccess_query (env : Env) (st : St) (listId op : String) :
    ∀ ev ∈ (checkListAccess env st listId op).2.2, ev.isQuery = true := by
  intro ev hmem
  rcases hg : env.getList listId with msg | list
  · rw [checkListAccess_fetch_fail env st listId op msg hg] at hmem
    simp at hmem
    subst hmem
    rfl
  · rw [checkListAccess_delegate env st listId op list hg] at hmem
    simp at hmem
    rcases hmem with h1 | h1
    · subst h1
      rfl
    · exact checkBoardAccess_query env st list.idBoard _ true ev h1

/-! Claim theorems. -/

/-- C1: with a non-empty configured allow-list (provenance key configured),
for every canonical board id — one that the Identifier Normalizer resolves to
itself — `checkBoardAccess` permits iff the id is a member of the allow-list,
and on a non-member it fails with a `BoardAccessError` carrying that board id,
the operation label, and the configured `allowedBoardsKey`. -/
theorem checkBoardAccess_allowList_decision
    (env : Env) (st : St) (boardId operation key : String) (allowed : List String)
    (hA : st.cfg.allowedBoardIds = some allowed) (hne : allowed ≠ [])
    (hK : st.cfg.allowedBoardsKey = some key)
    (hres : (fetchBoardNormalId env st boardId).1 = .ok boardId) :
    ((checkBoardAccess env st boardId operation true).1 = .ok true ↔ boardId ∈ allowed)
    ∧ (boardId ∉ allowed →
        (checkBoardAccess env st boardId operation true).1
          = .error (.boardAccess boardId operation key)) := by
  rcases hf : fetchBoardNormalId env st boardId with ⟨r, st1, tr1⟩
  have hr : r = .ok boardId := by rw [hf] at hres; exact hres
  subst hr
  have hcfg : st1.cfg = st.cfg := by
    have h2 := fetchBoardNormalId_cfg env st boardId
    rw [hf] at h2
    exact h2
  have hlen : ¬ allowed.length = 0 := fun h0 => hne (List.length_eq_zero.mp h0)
  unfold checkBoardAccess
  simp only [if_true]
  rw [hf]
  dsimp only
  rw [hcfg, hA]
  dsimp only
  rw [if_neg hlen]
  constructor
  · by_cases hmem : boardId ∈ allowed
    · have hc : allowed.contains boardId = true := by simpa using hmem
      rw [if_pos hc]
      simp [hmem]
    · have hc : ¬ allowed.contains boardId = true := by simpa using hmem
      rw [if_neg hc]
      simp [hmem]
  · intro hmem
    have hc : ¬ allowed.contains boardId = true := by simpa using hmem
    rw [if_neg hc, hK]
    rfl

/-- C1 witness: board "B1" is allowed, board "B3" is denied with the error
carrying "B3", the operation, and the provenance key "my_boards". -/
theorem checkBoardAccess_allowList_decision_witness :
    ((checkBoardAccess envW stW "B3" "get_board" true).1 = .ok true ↔ "B3" ∈ ["B1", "B2"])
    ∧ ("B3" ∉ ["B1", "B2"] →
        (checkBoardAccess envW stW "B3" "get_board" true).1
          = .error (.boardAccess "B3" "get_board" "my_boards")) :=
  checkBoardAccess_allowList_decision envW stW "B3" "get_board" "my_boards" ["B1", "B2"]
    rfl (by decide) rfl rfl

/-- C2: when the configured allow-list is absent or empty, `checkBoardAccess`
permits unconditionally — for any board id and operation, and for either value
of the normalization flag, provided the identifier resolves when
normalization is requested. -/
theorem checkBoardAccess_open_access
    (env : Env) (st : St) (boardId operation : String) (norm : Bool)
    (hA : st.cfg.allowedBoardIds = none ∨ st.cfg.allowedBoardIds = some [])
    (hres : norm = true → ∃ c, (fetchBoardNormalId env st boardId).1 = .ok c) :
    (checkBoardAccess env st boardId operation norm).1 = .ok true := by
  cases norm with
  | false =>
    unfold checkBoardAccess
    simp only [Bool.false_eq_true, if_false]
    rcases hA with h | h
    · rw [h]
    · rw [h]
      rfl
  | true =>
    obtain ⟨c, hc⟩ := hres rfl
    rcases hf : fetchBoardNormalId env st boardId with ⟨r, st1, tr1⟩
    have hr : r = .ok c := by rw [hf] at hc; exact hc
    subst hr
    have hcfg : st1.cfg = st.cfg := by
      have h2 := fetchBoardNormalId_cfg env st boardId
      rw [hf] at h2
      exact h2
    unfold checkBoardAccess
    simp only [if_true]
    rw [hf]
    dsimp only
    rw [hcfg]
    rcases hA with h | h
    · rw [h]
    · rw [h]
      rfl

/-- C2 witness: with no allow-list configured, board "B3" (and its
short form "SHORT") is permitted. -/
theorem checkBoardAccess_open_access_witness :
    (checkBoardAccess envW stOpen "B3" "get_board" true).1 = .ok true :=
  checkBoardAccess_open_access envW stOpen "B3" "get_board" true (.inl rfl)
    (fun _ => ⟨"B3", rfl⟩)

/-- C3 counterexample: resolving the unknown identifier "BX" while checking
access for the attempted operation "update_card" fails with an error of the
`BoardAccessError` class — the very class whose instances are access denials,
and the class the entity gates' catch clauses rethrow as denials — whose
operation field is the fixed string "getBoard" rather than the attempted
operation, and whose key field is the fixed string "board_not_found". -/
theorem fetchBoardNormalId_failure_class_counterexample :
    (checkBoardAccess envW stW "BX" "update_card" true).1
        = .error (.boardAccess "BX" "getBoard" "board_not_found")
    ∧ isBoardAccessError (.boardAccess "BX" "getBoard" "board_not_found") = true
    ∧ "getBoard" ≠ "update_card" := by
  refine ⟨by decide, rfl, by decide⟩

/-- C3 amended: on lookup failure `fetchBoardNormalId` surfaces a
`BoardAccessError` — the same error class used for access denials,
distinguishable from them only by its fields — carrying the input identifier,
the fixed operation label "getBoard" and the fixed provenance key
"board_not_found"; the failure is not stored in the cache (the state is
returned unchanged). -/
theorem fetchBoardNormalId_failure_not_cached
    (env : Env) (st : St) (input : String)
    (hmiss : mapGet st.cache input = none)
    (hfail : ∃ m, env.getBoard input = .error m) :
    fetchBoardNormalId env st input
      = (.error (.boardAccess input "getBoard" "board_not_found"), st, [.getBoard input]) := by
  obtain ⟨m, hm⟩ := hfail
  unfold fetchBoardNormalId
  rw [hmiss]
  dsimp only
  rw [hm]

/-- C3 amended witness: the unresolvable identifier "BX" under a fresh cache. -/
theorem fetchBoardNormalId_failure_not_cached_witness :
    fetchBoardNormalId envW stW "BX"
      = (.error (.boardAccess "BX" "getBoard" "board_not_found"), stW, [.getBoard "BX"]) :=
  fetchBoardNormalId_failure_not_cached envW stW "BX" rfl ⟨"board not found", by decide⟩

/-- C6: resolving the same identifier again after a successful resolution
returns the same canonical id with unchanged state and an empty trace (no
further remote lookup); a failed resolution leaves the state unchanged
(entries are created only on success); and a resolution never updates or
evicts an existing cache entry. -/
theorem fetchBoardNormalId_idempotent_cache (env : Env) (st : St) (input : String) :
    (∀ c, (fetchBoardNormalId env st input).1 = .ok c →
        fetchBoardNormalId env ((fetchBoardNormalId env st input).2.1) input
          = (.ok c, (fetchBoardNormalId env st input).2.1, []))
    ∧ (∀ e, (fetchBoardNormalId env st input).1 = .error e →
        (fetchBoardNormalId env st input).2.1 = st)
    ∧ (∀ k v, mapGet st.cache k = some v →
        mapGet ((fetchBoardNormalId env st input).2.1).cache k = some v) := by
  rcases hm : mapGet st.cache input with _ | c0
  · rcases hg : env.getBoard input with msg | b
    · have hfe : fetchBoardNormalId env st input
          = (.error (.boardAccess input "getBoard" "board_not_found"), st, [.getBoard input]) := by
        unfold fetchBoardNormalId
        rw [hm]
        dsimp only
        rw [hg]
      rw [hfe]
      refine ⟨?_, ?_, ?_⟩
      · intro c hc
        simp at hc
      · intro e he
        rfl
      · intro k v hkv
        exact hkv
    · have hfe : fetchBoardNormalId env st input
          = (.ok b, ⟨mapSet st.cache input b, st.cfg⟩, [.getBoard input]) := by
        unfold fetchBoardNormalId
        rw [hm]
        dsimp only
        rw [hg]
      rw [hfe]
      refine ⟨?_, ?_, ?_⟩
      · intro c hc
        have hcb : b = c := by simpa using hc
        subst hcb
        dsimp only
        unfold fetchBoardNormalId
        dsimp only
        rw [mapGet_mapSet_self]
      · intro e he
        simp at he
      · intro k v hkv
        have hk : k ≠ input := by
          intro h
          subst h
          rw [hm] at hkv
          exact Option.noConfusion hkv
        dsimp only
        rw [mapGet_mapSet_of_ne st.cache input k b hk]
        exact hkv
  · have hfe : fetchBoardNormalId env st input = (.ok c0, st, []) := by
      unfold fetchBoardNormalId
      rw [hm]
    rw [hfe]
    refine ⟨?_, ?_, ?_⟩
    · intro c hc
      have hcb : c0 = c := by simpa using hc
      subst hcb
      exact hfe
    · intro e he
      simp at he
    · intro k v hkv
      exact hkv

/-- C6 witness: resolving "SHORT" twice from a fresh cache: the first call
caches "SHORT" to "B1"; the second returns "B1" with unchanged state and no
remote call; existing entries survive. -/
theorem fetchBoardNormalId_idempotent_cache_witness :
    fetchBoardNormalId envW ((fetchBoardNormalId envW stW "SHORT").2.1) "SHORT"
      = (.ok "B1", (fetchBoardNormalId envW stW "SHORT").2.1, []) :=
  (fetchBoardNormalId_idempotent_cache envW stW "SHORT").1 "B1" (by decide)

/-- C9: `checkBoardAccess` mutates no state other than the normalization
cache written in its normalization step — its final state is exactly the
state left by `fetchBoardNormalId` (the input state when normalization is
disabled), the config (allow-list and provenance) is unchanged by every call,
and with normalization disabled the trace is empty (no remote lookup) and the
state is returned untouched. -/
theorem checkBoardAccess_no_state_mutation
    (env : Env) (st : St) (boardId operation : String) (norm : Bool) :
    ((checkBoardAccess env st boardId operation norm).2.1
        = if norm then (fetchBoardNormalId env st boardId).2.1 else st)
    ∧ ((checkBoardAccess env st boardId operation norm).2.1).cfg = st.cfg
    ∧ ((checkBoardAccess env st boardId operation norm).2.2
        = if norm then (fetchBoardNormalId env st boardId).2.2 else []) := by
  refine ⟨checkBoardAccess_state_eq env st boardId operation norm, ?_,
    checkBoardAccess_trace_eq env st boardId operation norm⟩
  rw [checkBoardAccess_state_eq]
  cases norm with
  | false => simp
  | true => simp [fetchBoardNormalId_cfg]

/-- C4: when the entity fetch fails, `checkCardAccess` / `checkListAccess`
fail with a plain wrapped error — not of the `BoardAccessError` class —
carrying the entity id and the underlying cause; and every error raised by
the delegated `checkBoardAccess` (in particular every access denial)
propagates out unchanged, not wrapped. -/
theorem entityGate_lookup_vs_denial
    (env : Env) (st : St) (cardId listId operation : String) :
    (∀ msg, env.getCard cardId = .error msg →
        (checkCardAccess env st cardId operation).1
            = .error (.generic ("Unable to verify access for card " ++ cardId ++ ": " ++ msg))
        ∧ isBoardAccessError
            (.generic ("Unable to verify access for card " ++ cardId ++ ": " ++ msg)) = false)
    ∧ (∀ card e, env.getCard cardId = .ok card →
        (checkBoardAccess env st card.idBoard (operation ++ " (card " ++ cardId ++ ")") true).1
            = .error e →
        (checkCardAccess env st cardId operation).1 = .error e)
    ∧ (∀ msg, env.getList listId = .error msg →
        (checkListAccess env st listId operation).1
            = .error (.generic ("Unable to verify access for list " ++ listId ++ ": " ++ msg))
        ∧ isBoardAccessError
            (.generic ("Unable to verify access for list " ++ listId ++ ": " ++ msg)) = false)
    ∧ (∀ list e, env.getList listId = .ok list →
        (checkBoardAccess env st list.idBoard (operation ++ " (list " ++ listId ++ ")") true).1
            = .error e →
        (checkListAccess env st listId operation).1 = .error e) := by
  refine ⟨?_, ?_, ?_, ?_⟩
  · intro msg hmsg
    rw [checkCardAccess_fetch_fail env st cardId operation msg hmsg]
    exact ⟨rfl, rfl⟩
  · intro card e hcard herr
    rw [checkCardAccess_delegate env st cardId operation card hcard]
    dsimp only
    rw [herr]
    rfl
  · intro msg hmsg
    rw [checkListAccess_fetch_fail env st listId operation msg hmsg]
    exact ⟨rfl, rfl⟩
  · intro list e hlist herr
    rw [checkListAccess_delegate env st listId operation list hlist]
    dsimp only
    rw [herr]
    rfl

/-- C4 witness: the unknown card "C9" yields the wrapped lookup error;
card "C3" on the disallowed board "B3" propagates the denial unchanged. -/
theorem entityGate_lookup_vs_denial_witness :
    ((checkCardAccess envW stW "C9" "get_card").1
        = .error (.generic ("Unable to verify access for card " ++ "C9" ++ ": " ++ "card not found"))
      ∧ isBoardAccessError
          (.generic ("Unable to verify access for card " ++ "C9" ++ ": " ++ "card not found")) = false)
    ∧ (checkCardAccess envW stW "C3" "get_card").1
        = .error (.boardAccess "B3" "get_card (card C3)" "my_boards") :=
  ⟨(entityGate_lookup_vs_denial envW stW "C9" "L9" "get_card").1 "card not found" (by decide),
   (entityGate_lookup_vs_denial envW stW "C3" "L9" "get_card").2.1 ⟨"C3", "B3"⟩
     (.boardAccess "B3" "get_card (card C3)" "my_boards") (by decide) (by decide)⟩

/-- C7: on a successful fetch the entity gates delegate to `checkBoardAccess`
on the entity's `idBoard`, with the operation label annotated as
"operation (card id)" / "operation (list id)", with normalization enabled
(the flag is the source default `true`); decision, state and trace are those
of the delegate, the trace additionally recording the entity fetch. -/
theorem entityGate_delegation
    (env : Env) (st : St) (cardId listId operation : String)
    (card : Card) (list : TrelloList)
    (hc : env.getCard cardId = .ok card) (hl : env.getList listId = .ok list) :
    checkCardAccess env st cardId operation
      = ((checkBoardAccess env st card.idBoard
            (operation ++ " (card " ++ cardId ++ ")") true).1.map (fun _ => ()),
         (checkBoardAccess env st card.idBoard
            (operation ++ " (card " ++ cardId ++ ")") true).2.1,
         .getCard cardId ::
           (checkBoardAccess env st card.idBoard
             (operation ++ " (card " ++ cardId ++ ")") true).2.2)
    ∧ checkListAccess env st listId operation
      = ((checkBoardAccess env st list.idBoard
            (operation ++ " (list " ++ listId ++ ")") true).1.map (fun _ => ()),
         (checkBoardAccess env st list.idBoard
            (operation ++ " (list " ++ listId ++ ")") true).2.1,
         .getList listId ::
           (checkBoardAccess env st list.idBoard
             (operation ++ " (list " ++ listId ++ ")") true).2.2) :=
  ⟨checkCardAccess_delegate env st cardId operation card hc,
   checkListAccess_delegate env st listId operation list hl⟩

/-- C7 witness: card "C1" (board "B1") and list "L2" (board "B3"). -/
theorem entityGate_delegation_witness :
    checkCardAccess envW stW "C1" "update_card"
      = ((checkBoardAccess envW stW "B1"
            ("update_card" ++ " (card " ++ "C1" ++ ")") true).1.map (fun _ => ()),
         (checkBoardAccess envW stW "B1"
            ("update_card" ++ " (card " ++ "C1" ++ ")") true).2.1,
         .getCard "C1" ::
           (checkBoardAccess envW stW "B1"
             ("update_card" ++ " (card " ++ "C1" ++ ")") true).2.2) :=
  (entityGate_delegation envW stW "C1" "L2" "update_card" ⟨"C1", "B1"⟩ ⟨"L2", "B3"⟩
    (by decide) (by decide)).1

/-- C8: a `delete_card` call whose confirm flag is not true fails with the
confirmation validation error while leaving the state unchanged and
producing no event at all — so neither the access check's entity fetch nor
`deleteCard` runs; the validation error is not of the `BoardAccessError`
class (the class of access denials and resolution failures) and differs
from every entity-lookup-failure message. -/
theorem delete_card_requires_confirmation (env : Env) (st : St) (cardId : String) :
    delete_card env st cardId false
      = (.error (.generic "Deletion requires confirmation. Set confirm: true to proceed."),
          st, [])
    ∧ isBoardAccessError
        (.generic "Deletion requires confirmation. Set confirm: true to proceed.") = false
    ∧ (∀ s, "Deletion requires confirmation. Set confirm: true to proceed."
          ≠ "Unable to verify access for card " ++ s)
    ∧ (∀ s, "Deletion requires confirmation. Set confirm: true to proceed."
          ≠ "Unable to verify access for list " ++ s) := by
  refine ⟨rfl, rfl, ?_, ?_⟩
  · intro s h
    have h2 : (some 'D' : Option Char) = some 'U' :=
      congrArg (fun t => t.data.head?) h
    exact absurd h2 (by decide)
  · intro s h
    have h2 : (some 'D' : Option Char) = some 'U' :=
      congrArg (fun t => t.data.head?) h
    exact absurd h2 (by decide)

/-- C8 witness: a concrete unconfirmed deletion, and the validation message
differs from the concrete lookup-failure message for card "C9". -/
theorem delete_card_requires_confirmation_witness :
    delete_card envW stW "C1" false
      = (.error (.generic "Deletion requires confirmation. Set confirm: true to proceed."),
          stW, [])
    ∧ "Deletion requires confirmation. Set confirm: true to proceed."
        ≠ "Unable to verify access for card " ++ "C9: card not found" :=
  ⟨(delete_card_requires_confirmation envW stW "C1").1,
   (delete_card_requires_confirmation envW stW "C1").2.2.1 "C9: card not found"⟩

/-- C5: the composite move handlers gate the source entity first and the
destination second, short-circuiting on the first denial: a source-check
denial makes the handler return exactly that check's outcome (no destination
fetch, no further event), a destination-check denial aborts after the two
checks, and in either case no `moveCardToList` / `moveListToBoard` mutation
event is ever issued. -/
theorem move_handlers_gate_both_endpoints
    (env : Env) (st : St) (cardId listId boardId : String) :
    (∀ e st1 tr1,
        checkCardAccess env st cardId "move_card_to_list" = (.error e, st1, tr1) →
        move_card_to_list env st cardId listId = (.error e, st1, tr1)
          ∧ ∀ c l, Event.moveCardToList c l ∉ tr1)
    ∧ (∀ st1 tr1 e st2 tr2,
        checkCardAccess env st cardId "move_card_to_list" = (.ok (), st1, tr1) →
        checkListAccess env st1 listId "move_card_to_list (target)" = (.error e, st2, tr2) →
        move_card_to_list env st cardId listId = (.error e, st2, tr1 ++ tr2)
          ∧ ∀ c l, Event.moveCardToList c l ∉ tr1 ++ tr2)
    ∧ (∀ e st1 tr1,
        checkListAccess env st listId "move_list_to_board" = (.error e, st1, tr1) →
        move_list_to_board env st listId boardId = (.error e, st1, tr1)
          ∧ ∀ l b, Event.moveListToBoard l b ∉ tr1)
    ∧ (∀ st1 tr1 e st2 tr2,
        checkListAccess env st listId "move_list_to_board" = (.ok (), st1, tr1) →
        checkBoardAccess env st1 boardId "move_list_to_board (target board)" true
            = (.error e, st2, tr2) →
        move_list_to_board env st listId boardId = (.error e, st2, tr1 ++ tr2)
          ∧ ∀ l b, Event.moveListToBoard l b ∉ tr1 ++ tr2) := by
  refine ⟨?_, ?_, ?_, ?_⟩
  · intro e st1 tr1 h1
    constructor
    · unfold move_card_to_list
      rw [h1]
    · intro c l hmem
      have hq := checkCardAccess_query env st cardId "move_card_to_list"
        (Event.moveCardToList c l) (by rw [h1]; exact hmem)
      simp [Event.isQuery] at hq
  · intro st1 tr1 e st2 tr2 h1 h2
    constructor
    · unfold move_card_to_list
      rw [h1]
      dsimp only
      rw [h2]
    · intro c l hmem
      rcases List.mem_append.mp hmem with hm | hm
      · have hq := checkCardAccess_query env st cardId "move_card_to_list"
          (Event.moveCardToList c l) (by rw [h1]; exact hm)
        simp [Event.isQuery] at hq
      · have hq := checkListAccess_query env st1 listId "move_card_to_list (target)"
          (Event.moveCardToList c l) (by rw [h2]; exact hm)
        simp [Event.isQuery] at hq
  · intro e st1 tr1 h1
    constructor
    · unfold move_list_to_board
      rw [h1]
    · intro l b hmem
      have hq := checkListAccess_query env st listId "move_list_to_board"
        (Event.moveListToBoard l b) (by rw [h1]; exact hmem)
      simp [Event.isQuery] at hq
  · intro st1 tr1 e st2 tr2 h1 h2
    constructor
    · unfold move_list_to_board
      rw [h1]
      dsimp only
      rw [h2]
    · intro l b hmem
      rcases List.mem_append.mp hmem with hm | hm
      · have hq := checkListAccess_query env st listId "move_list_to_board"
          (Event.moveListToBoard l b) (by rw [h1]; exact hm)
        simp [Event.isQuery] at hq
      · have hq := checkBoardAccess_query env st1 boardId "move_list_to_board (target board)"
          true (Event.moveListToBoard l b) (by rw [h2]; exact hm)
        simp [Event.isQuery] at hq

/-- C5 witness: moving card "C1" (on allowed board "B1") to list "L2" (on
disallowed board "B3") fails with the denial referencing "B3", and no
`moveCardToList` event occurs. -/
theorem move_handlers_gate_both_endpoints_witness :
    move_card_to_list envW stW "C1" "L2"
      = (.error (.boardAccess "B3" "move_card_to_list (target) (list L2)" "my_boards"),
          ⟨[("B1", "B1"), ("B3", "B3")], cfgW⟩,
          [Event.getCard "C1", Event.getBoard "B1"]
            ++ [Event.getList "L2", Event.getBoard "B3"])
      ∧ ∀ c l, Event.moveCardToList c l ∉
          [Event.getCard "C1", Event.getBoard "B1"]
            ++ [Event.getList "L2", Event.getBoard "B3"] :=
  (move_handlers_gate_both_endpoints envW stW "C1" "L2" "B1").2.1
    ⟨[("B1", "B1")], cfgW⟩ [Event.getCard "C1", Event.getBoard "B1"]
    (.boardAccess "B3" "move_card_to_list (target) (list L2)" "my_boards")
    ⟨[("B1", "B1"), ("B3", "B3")], cfgW⟩ [Event.getList "L2", Event.getBoard "B3"]
    (by decide) (by decide)

/-- C10: in `move_all_cards` the source-list and destination-list gates run
in that order; the target-board gate runs only when a boardId argument is
provided: with no boardId the mutation proceeds right after the two list
checks (the trace is exactly the two check traces followed by the
`moveAllCards` call, with no board-gate step); a source denial aborts the
handler for any boardId; and with a non-empty boardId a target-board denial
aborts the handler after the three checks with no mutation event. -/
theorem move_all_cards_optional_board_gate
    (env : Env) (st : St) (src dst : String) (ob : Option String) :
    (∀ st1 tr1 st2 tr2,
        checkListAccess env st src "move_all_cards (source)" = (.ok (), st1, tr1) →
        checkListAccess env st1 dst "move_all_cards (destination)" = (.ok (), st2, tr2) →
        env.moveAllCards src dst none = .ok () →
        move_all_cards env st src dst none
          = (.ok ⟨true, "All cards have been moved to the destination list"⟩, st2,
              tr1 ++ tr2 ++ [.moveAllCards src dst none]))
    ∧ (∀ e st1 tr1,
        checkListAccess env st src "move_all_cards (source)" = (.error e, st1, tr1) →
        move_all_cards env st src dst ob = (.error e, st1, tr1))
    ∧ (∀ b, b ≠ "" → ∀ st1 tr1 st2 tr2 e st3 tr3,
        checkListAccess env st src "move_all_cards (source)" = (.ok (), st1, tr1) →
        checkListAccess env st1 dst "move_all_cards (destination)" = (.ok (), st2, tr2) →
        checkBoardAccess env st2 b "move_all_cards (target board)" true
            = (.error e, st3, tr3) →
        move_all_cards env st src dst (some b) = (.error e, st3, tr1 ++ tr2 ++ tr3)
          ∧ ∀ s d obid, Event.moveAllCards s d obid ∉ tr1 ++ tr2 ++ tr3) := by
  refine ⟨?_, ?_, ?_⟩
  · intro st1 tr1 st2 tr2 h1 h2 hmv
    unfold move_all_cards
    rw [h1]
    dsimp only
    rw [h2]
    simp only [truthyOpt, Bool.false_eq_true, if_false]
    rw [hmv]
    simp
  · intro e st1 tr1 h1
    unfold move_all_cards
    rw [h1]
  · intro b hb st1 tr1 st2 tr2 e st3 tr3 h1 h2 h3
    have hbe : b.isEmpty = false := by
      cases hbe2 : b.isEmpty
      · rfl
      · exact absurd ((String.isEmpty_iff b).mp hbe2) hb
    constructor
    · unfold move_all_cards
      rw [h1]
      dsimp only
      rw [h2]
      dsimp only [truthyOpt, optStr]
      rw [hbe]
      simp only [Bool.not_false, if_true]
      rw [h3]
    · intro s d obid hmem
      rcases List.mem_append.mp hmem with hm | hm
      · rcases List.mem_append.mp hm with hm2 | hm2
        · have hq := checkListAccess_query env st src "move_all_cards (source)"
            (Event.moveAllCards s d obid) (by rw [h1]; exact hm2)
          simp [Event.isQuery] at hq
        · have hq := checkListAccess_query env st1 dst "move_all_cards (destination)"
            (Event.moveAllCards s d obid) (by rw [h2]; exact hm2)
          simp [Event.isQuery] at hq
      · have hq := checkBoardAccess_query env st2 b "move_all_cards (target board)"
          true (Event.moveAllCards s d obid) (by rw [h3]; exact hm)
        simp [Event.isQuery] at hq

/-- C10 witness: moving all cards from "L1" to "L1" with no boardId argument
succeeds after exactly the two list checks and the mutation call. -/
theorem move_all_cards_optional_board_gate_witness :
    move_all_cards envW stW "L1" "L1" none
      = (.ok ⟨true, "All cards have been moved to the destination list"⟩,
          ⟨[("B1", "B1")], cfgW⟩,
          [Event.getList "L1", Event.getBoard "B1"] ++ [Event.getList "L1"]
            ++ [.moveAllCards "L1" "L1" none]) :=
  (move_all_cards_optional_board_gate envW stW "L1" "L1" none).1
    ⟨[("B1", "B1")], cfgW⟩ [Event.getList "L1", Event.getBoard "B1"]
    ⟨[("B1", "B1")], cfgW⟩ [Event.getList "L1"]
    (by decide) (by decide) (by decide)

end TrelloACL
